import Mathlib

/-!
Shallow embedding of the Camel Care Flask application (src/app.py).

The app is a single-file CRUD server over five SQLite tables (users, profiles,
listings, messages, events).  We embed the persisted state as lists of records,
and each request handler as a pure function from (state, identity, validated
form data, clock) to (response, new state).  Each handler models the body of
the `validate_on_submit()` branch of the corresponding Python view function;
the theorems quantify over all submitted field values, which subsumes the
valid ones.

Strings that the database compares (SQL LIKE, equality) are modelled as lists
of Unicode codepoints (`Char.toNat`), because the SQLite LIKE operator works
character-wise with ASCII-only case folding; 37 is the codepoint of the
percent sign and 95 of the underscore, the two LIKE wildcards, and 45 is the
hyphen.  Prices (a nullable FLOAT column fed from a WTForms FloatField with no
validators) are modelled as `Option ℚ`; the claims about prices only involve
zero and negative literals, where rational and IEEE semantics agree (NaN input
is out of scope).  Timestamps (`created_at`, via `datetime.utcnow`) are opaque
`Nat` clock values passed explicitly.
-/

/-- ASCII-only lower-casing of a codepoint, as performed by the default
(case-insensitive) SQLite LIKE operator: letters A-Z (65-90) map to a-z
(97-122), everything else is unchanged. -/
def asciiLowerN (n : Nat) : Nat := if 65 ≤ n ∧ n ≤ 90 then n + 32 else n

/-- Codepoints of a string after ASCII lower-casing. -/
def lowerCodes (s : String) : List Nat := s.data.map (fun c => asciiLowerN c.toNat)

/-- SQLite LIKE pattern matching over codepoint lists (both sides already
lower-cased): 37 (`%`) matches any sequence, 95 (`_`) matches any single
character, any other codepoint matches itself. -/
def likeM : List Nat → List Nat → Bool
  | [], s => s.isEmpty
  | p :: ps, s =>
    if p = 37 then s.tails.any fun t => likeM ps t
    else
      match s with
      | [] => false
      | c :: t => (p == 95 || c == p) && likeM ps t

/-- `column.contains(q)` in SQLAlchemy compiles to `column LIKE '%' || q || '%'`
with no escaping of `%`/`_` inside `q`; SQLite LIKE is ASCII-case-insensitive
by default. -/
def likeContains (q s : String) : Bool :=
  likeM (37 :: lowerCodes q ++ [37]) (lowerCodes s)

/-- Value of a digit codepoint (48-57). -/
def digitVal (n : Nat) : Nat := n - 48

/-- Is the codepoint an ASCII digit (`\d` in the strptime regex)? -/
def isDigitCode (n : Nat) : Bool := 48 ≤ n && n ≤ 57

/-- The `%m` component of CPython strptime, regex `1[0-2]|0[1-9]|[1-9]`:
one or two digit codepoints whose numeric value is between 1 and 12
(equivalent to the alternation: `1[0-2]` gives 10-12, `0[1-9]` gives 01-09,
`[1-9]` gives 1-9, and every two-digit value 1-12 is covered by the first two
alternatives). -/
def monthVal : List Nat → Option Nat
  | [c] => if isDigitCode c ∧ 1 ≤ digitVal c then some (digitVal c) else none
  | [c₁, c₂] =>
    let v := 10 * digitVal c₁ + digitVal c₂
    if isDigitCode c₁ ∧ isDigitCode c₂ ∧ 1 ≤ v ∧ v ≤ 12 then some v else none
  | _ => none

/-- The `%d` component of CPython strptime, regex `3[01]|[12]\d|0[1-9]|[1-9]`:
one or two digit codepoints whose numeric value is between 1 and 31. -/
def dayVal : List Nat → Option Nat
  | [c] => if isDigitCode c ∧ 1 ≤ digitVal c then some (digitVal c) else none
  | [c₁, c₂] =>
    let v := 10 * digitVal c₁ + digitVal c₂
    if isDigitCode c₁ ∧ isDigitCode c₂ ∧ 1 ≤ v ∧ v ≤ 31 then some v else none
  | _ => none

/-- Split the part of the date string after `YYYY-` into the month token and
the day token: the month token is the one or two characters before the next
literal hyphen (the regex engine backtracks, but a two-character month token
consists of digits and so never contains the hyphen, hence at most one split
can succeed). -/
def splitMD : List Nat → Option (List Nat × List Nat)
  | c₁ :: c₂ :: rest =>
    if c₂ = 45 then some ([c₁], rest)
    else
      match rest with
      | 45 :: ds => some ([c₁, c₂], ds)
      | _ => none
  | _ => none

/-- Gregorian leap year, as used by `datetime.date`. -/
def isLeap (y : Nat) : Bool := y % 4 == 0 && (y % 100 != 0 || y % 400 == 0)

/-- Days in a month, as validated by the `datetime.date` constructor. -/
def daysInMonth (y m : Nat) : Nat :=
  if m == 2 then (if isLeap y then 29 else 28)
  else if m == 4 || m == 6 || m == 9 || m == 11 then 30
  else 31

/-- A calendar date as produced by `datetime.strptime(s, "%Y-%m-%d")`
(the time-of-day part is always midnight and is omitted). -/
structure PyDate where
  year : Nat
  month : Nat
  day : Nat
deriving DecidableEq, Repr

/-- `datetime.strptime(s, "%Y-%m-%d")` on the codepoints of `s`:
the regex `(?P<Y>\d\d\d\d)-(?P<m>1[0-2]|0[1-9]|[1-9])-(?P<d>...)` must consume
the whole string, and the resulting (year, month, day) triple must be a real
calendar date with year at least 1 (`datetime.MINYEAR`), otherwise the
exception branch is taken. -/
def parseYmdCodes : List Nat → Option PyDate
  | y₁ :: y₂ :: y₃ :: y₄ :: c :: rest =>
    if c = 45 ∧ isDigitCode y₁ ∧ isDigitCode y₂ ∧ isDigitCode y₃ ∧ isDigitCode y₄ then
      match splitMD rest with
      | none => none
      | some (ms, ds) =>
        match monthVal ms, dayVal ds with
        | some m, some d =>
          let y := 1000 * digitVal y₁ + 100 * digitVal y₂ + 10 * digitVal y₃ + digitVal y₄
          if 1 ≤ y ∧ d ≤ daysInMonth y m then some ⟨y, m, d⟩ else none
        | _, _ => none
    else none
  | _ => none

/-- `datetime.strptime(s, "%Y-%m-%d")` as called by the `new_event` handler. -/
def strptimeYmd (s : String) : Option PyDate :=
  parseYmdCodes (s.data.map Char.toNat)

/-- Modelled from the spec: the identity hash function (passlib `bcrypt`,
an external library, delegated to by `User.set_password`/`check_password`):
"`hash_password(plaintext) -> opaque hash` using a salted, slow hash function
...; `verify_password(plaintext, hash) -> bool`" with
"for any altered password it returns false".  The salt is made explicit and
the opaque hash is modelled as a salt-tagged copy of the plaintext so that
verification succeeds exactly on the hashed password. -/
structure BcryptHash where
  salt : Nat
  plaintext : String
deriving DecidableEq, Repr

/-- Modelled from the spec: `bcrypt.hash(password)` with an explicit salt. -/
def bcrypt.hash (salt : Nat) (password : String) : BcryptHash := ⟨salt, password⟩

/-- Modelled from the spec: `bcrypt.verify(password, hash)`. -/
def bcrypt.verify (password : String) (h : BcryptHash) : Bool :=
  password == h.plaintext

/-- Row of the `users` table. -/
structure UserR where
  id : Nat
  username : String
  email : String
  password_hash : BcryptHash
  role : String
  created_at : Nat
deriving DecidableEq, Repr

/-- `User.set_password`: stores the bcrypt hash of the password. -/
def UserR.set_password (u : UserR) (salt : Nat) (password : String) : UserR :=
  { u with password_hash := bcrypt.hash salt password }

/-- `User.check_password`: verifies the password against the stored hash. -/
def UserR.check_password (u : UserR) (password : String) : Bool :=
  bcrypt.verify password u.password_hash

/-- Row of the `profiles` table.  The four descriptive columns are nullable in
the schema but every code path that inserts a profile (the register handler
and the seed loader) sets all four, so they are embedded as plain strings. -/
structure ProfileR where
  id : Nat
  user_id : Nat
  full_name : String
  phone : String
  location : String
  bio : String
deriving DecidableEq, Repr

/-- Row of the `listings` table. -/
structure ListingR where
  id : Nat
  title : String
  description : String
  owner_id : Nat
  category : String
  price : Option ℚ
  quantity : String
  location : String
  created_at : Nat
deriving DecidableEq, Repr

/-- Row of the `messages` table. -/
structure MessageR where
  id : Nat
  sender_id : Nat
  receiver_id : Nat
  subject : String
  body : String
  created_at : Nat
deriving DecidableEq, Repr

/-- Row of the `events` table. -/
structure EventR where
  id : Nat
  title : String
  description : String
  date : PyDate
  organizer_id : Nat
  created_at : Nat
deriving DecidableEq, Repr

/-- The persisted state: the five tables, in insertion order. -/
structure AppState where
  users : List UserR
  profiles : List ProfileR
  listings : List ListingR
  messages : List MessageR
  events : List EventR
deriving DecidableEq, Repr

/-- Fresh SQLite integer primary key: one more than the largest key in use. -/
def freshId (ids : List Nat) : Nat := ids.foldr max 0 + 1

/-- Response of a handler: a redirect to an endpoint carrying a flash
(message, category) pair.  Rendering is out of scope. -/
inductive Resp where
  | redirect (endpoint : String) (flashMsg : String) (flashCat : String)
deriving DecidableEq, Repr

/-- Validated field data of `RegisterForm`. -/
structure RegisterFormData where
  username : String
  email : String
  password : String
  role : String
deriving DecidableEq, Repr

/-- Validated field data of `ListingForm`.  `price` is a FloatField with no
validators: `none` when the field was not submitted, otherwise the parsed
number. -/
structure ListingFormData where
  title : String
  description : String
  category : String
  price : Option ℚ
  quantity : String
  location : String
deriving DecidableEq, Repr

/-- Validated field data of `MessageForm`. -/
structure MessageFormData where
  receiver : String
  subject : String
  body : String
deriving DecidableEq, Repr

/-- Validated field data of `EventForm` (the date is a free string field,
parsed only inside the handler). -/
structure EventFormData where
  title : String
  description : String
  date : String
deriving DecidableEq, Repr

/-- The `register` view, validated-submission branch: reject when some user
already has the submitted username or email, otherwise insert the new user
(with hashed password) and then an empty profile bound to it. -/
def register (st : AppState) (salt : Nat) (now : Nat) (f : RegisterFormData) :
    Resp × AppState :=
  if st.users.any (fun u => u.username == f.username || u.email == f.email) then
    (.redirect "register" "Username or email already exists" "danger", st)
  else
    let uid := freshId (st.users.map (fun u => u.id))
    let u : UserR := ⟨uid, f.username, f.email, bcrypt.hash salt f.password, f.role, now⟩
    let pid := freshId (st.profiles.map (fun p => p.id))
    let prof : ProfileR := ⟨pid, uid, "", "", "", ""⟩
    (.redirect "login" "Account created. Please log in." "success",
      { st with users := st.users ++ [u], profiles := st.profiles ++ [prof] })

/-- The `new_listing` view, validated-submission branch: insert a listing
owned by the current identity; `price=form.price.data or None` collapses a
falsy price (absent or zero) to NULL. -/
def new_listing (st : AppState) (uid : Nat) (now : Nat) (f : ListingFormData) :
    Resp × AppState :=
  let price : Option ℚ :=
    match f.price with
    | none => none
    | some p => if p == 0 then none else some p
  let lid := freshId (st.listings.map (fun l => l.id))
  let l : ListingR := ⟨lid, f.title, f.description, uid, f.category, price,
    f.quantity, f.location, now⟩
  (.redirect "dashboard" "Listing created." "success",
    { st with listings := st.listings ++ [l] })

/-- The `new_message` view, validated-submission branch: look the receiver up
by username; if absent, flash an error and insert nothing, otherwise insert
the message. -/
def new_message (st : AppState) (uid : Nat) (now : Nat) (f : MessageFormData) :
    Resp × AppState :=
  match st.users.find? (fun u => u.username == f.receiver) with
  | none => (.redirect "new_message" "Receiver not found." "danger", st)
  | some r =>
    let mid := freshId (st.messages.map (fun m => m.id))
    (.redirect "dashboard" "Message sent." "success",
      { st with messages := st.messages ++ [⟨mid, uid, r.id, f.subject, f.body, now⟩] })

/-- The `new_event` view, validated-submission branch: parse the date with
`strptime("%Y-%m-%d")`; on failure flash an error and insert nothing,
otherwise insert the event organized by the current identity. -/
def new_event (st : AppState) (uid : Nat) (now : Nat) (f : EventFormData) :
    Resp × AppState :=
  match strptimeYmd f.date with
  | none => (.redirect "new_event" "Invalid date format. Use YYYY-MM-DD." "danger", st)
  | some d =>
    let eid := freshId (st.events.map (fun e => e.id))
    (.redirect "dashboard" "Event created." "success",
      { st with events := st.events ++ [⟨eid, f.title, f.description, d, uid, now⟩] })

/-- The WHERE clause shared by the `index` and `api_listings` queries: an
empty `q`/`cat` parameter is falsy in Python and adds no filter; a non-empty
`q` requires `title LIKE '%q%' OR description LIKE '%q%'`; a non-empty `cat`
requires exact category equality. -/
def listingFilter (q cat : String) (l : ListingR) : Bool :=
  (q == "" || (likeContains q l.title || likeContains q l.description))
    && (cat == "" || l.category == cat)

/-- ORDER BY `created_at DESC` on listings. -/
def listingDesc (a b : ListingR) : Prop := b.created_at ≤ a.created_at

instance : DecidableRel listingDesc :=
  fun a b => inferInstanceAs (Decidable (b.created_at ≤ a.created_at))

instance : IsTotal ListingR listingDesc :=
  ⟨fun a b => Nat.le_total b.created_at a.created_at⟩

instance : IsTrans ListingR listingDesc :=
  ⟨fun _ _ _ h₁ h₂ => Nat.le_trans h₂ h₁⟩

/-- The listing query shared by `index` and `api_listings`: WHERE, then
ORDER BY `created_at DESC`, then LIMIT `cap`. -/
def listingQuery (st : AppState) (q cat : String) (cap : Nat) : List ListingR :=
  (List.insertionSort listingDesc (st.listings.filter (listingFilter q cat))).take cap

/-- The listings shown by the `index` (browse) view: filters `q`/`cat`,
newest first, at most 30. -/
def index_listings (st : AppState) (q cat : String) : List ListingR :=
  listingQuery st q cat 30

/-- The listing rows returned by `GET /api/listings`: filters `q`/`category`,
newest first, at most 200 (the route then serializes each row field-by-field
together with an owner summary; the serialization preserves the rows and
their order). -/
def api_listings (st : AppState) (q cat : String) : List ListingR :=
  listingQuery st q cat 200

/-- Numeric encoding of a date for ordering: chronological order of stored
dates (which always have month at most 12 and day at most 31) coincides with
the numeric order of this key. -/
def PyDate.key (d : PyDate) : Nat := d.year * 10000 + d.month * 100 + d.day

/-- ORDER BY `date ASC` on events. -/
def eventAsc (a b : EventR) : Prop := a.date.key ≤ b.date.key

instance : DecidableRel eventAsc :=
  fun a b => inferInstanceAs (Decidable (a.date.key ≤ b.date.key))

instance : IsTotal EventR eventAsc :=
  ⟨fun a b => Nat.le_total a.date.key b.date.key⟩

instance : IsTrans EventR eventAsc :=
  ⟨fun _ _ _ h₁ h₂ => Nat.le_trans h₁ h₂⟩

/-- The events shown by the `index` (browse) view: ORDER BY `date ASC`,
LIMIT 10. -/
def index_events (st : AppState) : List EventR :=
  (List.insertionSort eventAsc st.events).take 10

/-- The nested `profile` object of the `GET /api/users/<id>` JSON payload:
all four keys are always present and are strings. -/
structure ProfileJson where
  full_name : String
  phone : String
  location : String
  bio : String
deriving DecidableEq, Repr

/-- The JSON payload of `GET /api/users/<id>`. -/
structure UserJson where
  id : Nat
  username : String
  email : String
  role : String
  profile : ProfileJson
deriving DecidableEq, Repr

/-- The `api_user` view: `get_or_404` on the user id (`none` models the 404
response), then each profile field falls back to the empty string when the
user has no profile row (`u.profile.x if u.profile else ""`). -/
def api_user (st : AppState) (user_id : Nat) : Option UserJson :=
  match st.users.find? (fun u => u.id == user_id) with
  | none => none
  | some u =>
    let prof := st.profiles.find? (fun p => p.user_id == u.id)
    some
      { id := u.id, username := u.username, email := u.email, role := u.role,
        profile :=
          match prof with
          | none => ⟨"", "", "", ""⟩
          | some p => ⟨p.full_name, p.phone, p.location, p.bio⟩ }

/-! ## Definitions taken from the words of the spec (for comparison only) -/

/-- Spec-side predicate, from the words of the claims: the (ASCII-)
case-insensitive substring-containment relation that the spec asserts the
`q` filter implements. -/
def specContainsCI (q s : String) : Prop :=
  lowerCodes q <:+: lowerCodes s

instance (q s : String) : Decidable (specContainsCI q s) :=
  inferInstanceAs (Decidable (lowerCodes q <:+: lowerCodes s))

/-- Spec-side parser, from the words of the claims: a date string "strictly
`YYYY-MM-DD`" is four digits, a hyphen, two digits, a hyphen, two digits, and
the three components form a real calendar date (year at least 1). -/
def strictYmdParse (s : String) : Option PyDate :=
  match s.data.map Char.toNat with
  | [a, b, c, d, 45, e, f, 45, g, h] =>
    if isDigitCode a ∧ isDigitCode b ∧ isDigitCode c ∧ isDigitCode d ∧
        isDigitCode e ∧ isDigitCode f ∧ isDigitCode g ∧ isDigitCode h then
      let y := 1000 * digitVal a + 100 * digitVal b + 10 * digitVal c + digitVal d
      let m := 10 * digitVal e + digitVal f
      let dd := 10 * digitVal g + digitVal h
      if 1 ≤ y ∧ 1 ≤ m ∧ m ≤ 12 ∧ 1 ≤ dd ∧ dd ≤ daysInMonth y m then
        some ⟨y, m, dd⟩
      else none
    else none
  | _ => none

/-- A LIKE pattern fragment with no wildcard characters. -/
def noWildcard (cs : List Nat) : Bool := cs.all (fun c => !(c == 37) && !(c == 95))

/-! ## Lemmas about LIKE matching -/

/-- Unfolding of `likeM` at a leading `%`. -/
theorem likeM_percent (ps : List Nat) (s : List Nat) :
    likeM (37 :: ps) s = s.tails.any fun t => likeM ps t := by
  simp [likeM]

/-- A lone `%` matches every string. -/
theorem likeM_percent_all (s : List Nat) : likeM [37] s = true := by
  rw [likeM_percent]
  exact List.any_eq_true.2 ⟨[], (List.mem_tails _ _).2 List.nil_suffix, rfl⟩

/-- A wildcard-free pattern followed by `%` matches exactly the strings it is
a prefix of. -/
theorem likeM_lit_percent (p : List Nat) (hw : noWildcard p = true) (s : List Nat) :
    (likeM (p ++ [37]) s = true ↔ p <+: s) := by
  induction p generalizing s with
  | nil => simpa using likeM_percent_all s
  | cons c p ih =>
    rw [noWildcard, List.all_cons, Bool.and_eq_true, Bool.and_eq_true,
      Bool.not_eq_true', Bool.not_eq_true', beq_eq_false_iff_ne, beq_eq_false_iff_ne] at hw
    obtain ⟨⟨hc37, hc95⟩, hwp⟩ := hw
    cases s with
    | nil =>
      simp only [List.cons_append, likeM, if_neg hc37, List.prefix_nil]
      simp
    | cons d t =>
      simp only [List.cons_append, likeM, if_neg hc37, List.cons_prefix_cons]
      rw [Bool.and_eq_true, Bool.or_eq_true]
      simp only [beq_iff_eq]
      constructor
      · rintro ⟨(h | h), hm⟩
        · exact absurd h hc95
        · exact ⟨h.symm, (ih hwp t).1 hm⟩
      · rintro ⟨h, hm⟩
        exact ⟨Or.inr h.symm, (ih hwp t).2 hm⟩

/-- For a wildcard-free `p`, the pattern `%p%` matches exactly the strings
containing `p` as a contiguous substring. -/
theorem likeM_contains_iff (p : List Nat) (hw : noWildcard p = true) (s : List Nat) :
    (likeM (37 :: (p ++ [37])) s = true ↔ p <:+: s) := by
  rw [likeM_percent, List.any_eq_true, List.infix_iff_prefix_suffix]
  constructor
  · rintro ⟨t, ht, hm⟩
    exact ⟨t, (likeM_lit_percent p hw t).1 hm, (List.mem_tails _ _).1 ht⟩
  · rintro ⟨t, hp, hs⟩
    exact ⟨t, (List.mem_tails _ _).2 hs, (likeM_lit_percent p hw t).2 hp⟩

/-- For a wildcard-free filter value `q`, the compiled `LIKE '%q%'` test is
exactly case-insensitive substring containment. -/
theorem likeContains_iff (q s : String) (hw : noWildcard (lowerCodes q) = true) :
    (likeContains q s = true ↔ specContainsCI q s) :=
  likeM_contains_iff (lowerCodes q) hw (lowerCodes s)

/-- Rows returned by the shared listing query are rows of the table that pass
the WHERE clause. -/
theorem mem_listingQuery {st : AppState} {q cat : String} {cap : Nat} {l : ListingR}
    (h : l ∈ listingQuery st q cat cap) :
    l ∈ st.listings ∧ listingFilter q cat l = true := by
  have h₁ : l ∈ List.insertionSort listingDesc (st.listings.filter (listingFilter q cat)) :=
    List.take_subset _ _ h
  have h₂ : l ∈ st.listings.filter (listingFilter q cat) :=
    (List.perm_insertionSort listingDesc _).subset h₁
  exact List.mem_filter.1 h₂

/-- C1 (amended): every listing returned by the browse view or the API is a
stored row passing the filters; the category filter is exact equality, the
`q` filter is the LIKE test, which coincides with case-insensitive substring
containment when `q` has no `%`/`_` wildcard; empty filter values restrict
nothing. -/
theorem listing_filter_sound (st : AppState) (q cat : String) :
    (∀ l, (l ∈ index_listings st q cat ∨ l ∈ api_listings st q cat) →
      l ∈ st.listings ∧
      (cat ≠ "" → l.category = cat) ∧
      (q ≠ "" → (likeContains q l.title = true ∨ likeContains q l.description = true)) ∧
      (q ≠ "" → noWildcard (lowerCodes q) = true →
        (specContainsCI q l.title ∨ specContainsCI q l.description))) ∧
    (∀ l, listingFilter "" "" l = true) := by
  constructor
  · intro l h
    have hm : l ∈ st.listings ∧ listingFilter q cat l = true := by
      rcases h with h | h
      · exact mem_listingQuery h
      · exact mem_listingQuery h
    obtain ⟨hmem, hf⟩ := hm
    rw [listingFilter, Bool.and_eq_true, Bool.or_eq_true, Bool.or_eq_true, Bool.or_eq_true] at hf
    obtain ⟨hq, hcat⟩ := hf
    refine ⟨hmem, ?_, ?_, ?_⟩
    · intro hc
      rcases hcat with h | h
      · exact absurd (by simpa using h) hc
      · simpa using h
    · intro hqne
      rcases hq with h | h
      · exact absurd (by simpa using h) hqne
      · exact h
    · intro hqne hwild
      rcases hq with h | h
      · exact absurd (by simpa using h) hqne
      · rcases h with h | h
        · exact Or.inl ((likeContains_iff _ _ hwild).1 h)
        · exact Or.inr ((likeContains_iff _ _ hwild).1 h)
  · intro l
    simp [listingFilter]

/-- A listing table with one row whose title and description avoid the
percent sign, used to refute the literal reading of the substring claim. -/
def lC1 : ListingR := ⟨1, "abc", "xyzwwwwww", 1, "milk", none, "", "", 5⟩

def stC1 : AppState := ⟨[], [], [lC1], [], []⟩

/-- C1, literal claim refuted: with filter `q = "%"` the browse view returns
the stored listing even though neither its title nor its description contains
the percent sign as a substring (in `q`, `%` is a LIKE wildcard, not a
literal). -/
theorem listing_filter_claim_cex :
    index_listings stC1 "%" "" = [lC1] ∧
    ¬ specContainsCI "%" lC1.title ∧ ¬ specContainsCI "%" lC1.description :=
  ⟨by decide, by decide, by decide⟩

def lC1w : ListingR := ⟨1, "Camel AB", "fresh camel milk", 1, "milk", none, "", "", 5⟩

def stC1w : AppState := ⟨[], [], [lC1w], [], []⟩

/-- Witness for `listing_filter_sound` at a concrete state and filters. -/
theorem listing_filter_sound_witness :
    ((lC1w ∈ index_listings stC1w "ab" "milk" ∨ lC1w ∈ api_listings stC1w "ab" "milk") ∧
      (lC1w ∈ stC1w.listings ∧
        ("milk" ≠ "" → lC1w.category = "milk") ∧
        ("ab" ≠ "" → (likeContains "ab" lC1w.title = true ∨ likeContains "ab" lC1w.description = true)) ∧
        ("ab" ≠ "" → noWildcard (lowerCodes "ab") = true →
          (specContainsCI "ab" lC1w.title ∨ specContainsCI "ab" lC1w.description)))) :=
  ⟨Or.inl (by decide),
    (listing_filter_sound stC1w "ab" "milk").1 lC1w (Or.inl (by decide))⟩

/-! ## Ordering and caps (C6) -/

/-- Taking a prefix preserves sortedness. -/
theorem sorted_take {α : Type} {r : α → α → Prop} {l : List α} (h : l.Sorted r) (n : Nat) :
    (l.take n).Sorted r :=
  List.Pairwise.sublist (List.take_sublist n l) h

/-- C6: the browse view and the API return listings sorted by creation time
descending, capped at 30 and 200 rows; the browse view returns events sorted
by scheduled date ascending, capped at 10 rows. -/
theorem query_sorted_capped (st : AppState) (q cat : String) :
    (index_listings st q cat).Sorted listingDesc ∧
    (index_listings st q cat).length ≤ 30 ∧
    (api_listings st q cat).Sorted listingDesc ∧
    (api_listings st q cat).length ≤ 200 ∧
    (index_events st).Sorted eventAsc ∧
    (index_events st).length ≤ 10 := by
  refine ⟨?_, ?_, ?_, ?_, ?_, ?_⟩
  · exact sorted_take (List.sorted_insertionSort listingDesc _) 30
  · rw [index_listings, listingQuery, List.length_take]
    exact min_le_left _ _
  · exact sorted_take (List.sorted_insertionSort listingDesc _) 200
  · rw [api_listings, listingQuery, List.length_take]
    exact min_le_left _ _
  · exact sorted_take (List.sorted_insertionSort eventAsc _) 10
  · rw [index_events, List.length_take]
    exact min_le_left _ _

/-! ## Event creation and date parsing (C2) -/

/-- Digit codepoints are the range 48-57. -/
theorem isDigitCode_iff {n : Nat} : isDigitCode n = true ↔ 48 ≤ n ∧ n ≤ 57 := by
  simp [isDigitCode]

/-- No month has more than 31 days. -/
theorem daysInMonth_le_31 (y m : Nat) : daysInMonth y m ≤ 31 := by
  rw [daysInMonth]
  split
  · split <;> omega
  · split <;> omega

/-- Every strictly formatted valid `YYYY-MM-DD` string is accepted by
`strptime("%Y-%m-%d")`, with the same resulting date. -/
theorem strict_le_strptime (s : String) (d : PyDate)
    (h : strictYmdParse s = some d) : strptimeYmd s = some d := by
  rw [strictYmdParse] at h
  split at h
  case _ a b c dc e f g hh heq =>
    split at h
    case isTrue hdig =>
      obtain ⟨ha, hb, hc, hd, he, hf, hg, hh'⟩ := hdig
      dsimp only at h
      split at h
      case isTrue hcond =>
        obtain ⟨hy1, hm1, hm2, hd1, hd2⟩ := hcond
        rw [Option.some_inj] at h
        subst h
        rw [strptimeYmd, heq, parseYmdCodes]
        rw [if_pos ⟨rfl, ha, hb, hc, hd⟩]
        have hf45 : ¬ (f = 45) := by
          have := isDigitCode_iff.1 hf
          omega
        rw [splitMD, if_neg hf45]
        simp only [monthVal, dayVal]
        rw [if_pos ⟨he, hf, hm1, hm2⟩]
        have hd31 : 10 * digitVal g + digitVal hh ≤ 31 :=
          le_trans hd2 (daysInMonth_le_31 _ _)
        rw [if_pos ⟨hg, hh', hd1, hd31⟩]
        dsimp only
        rw [if_pos ⟨hy1, hd2⟩]
      case isFalse => simp at h
    case isFalse => simp at h
  case _ => simp at h

/-- The empty database, as after `db.create_all()` with no seed. -/
def emptyState : AppState := ⟨[], [], [], [], []⟩

/-- C2 (amended): the event handler fails (error flash, no insert) exactly
when `strptime("%Y-%m-%d")` rejects the date string; when it accepts,
exactly one Event row is appended, carrying the parsed date and the current
identity as organizer.  Every strictly formatted valid `YYYY-MM-DD` date is
accepted (but strptime also accepts non-zero-padded variants). -/
theorem new_event_spec (st : AppState) (uid now : Nat) (f : EventFormData) :
    (strptimeYmd f.date = none →
      new_event st uid now f =
        (.redirect "new_event" "Invalid date format. Use YYYY-MM-DD." "danger", st)) ∧
    (∀ d, strptimeYmd f.date = some d →
      new_event st uid now f =
        (.redirect "dashboard" "Event created." "success",
          { st with events := st.events ++
              [⟨freshId (st.events.map (fun e => e.id)), f.title, f.description, d, uid, now⟩] })) ∧
    (∀ s d, strictYmdParse s = some d → strptimeYmd s = some d) := by
  refine ⟨?_, ?_, ?_⟩
  · intro h
    rw [new_event, h]
  · intro d h
    rw [new_event, h]
  · exact strict_le_strptime

/-- A valid event submission whose date is not in strict `YYYY-MM-DD` form. -/
def fC2 : EventFormData := ⟨"Camel Workshop", "A field workshop on camels", "2024-1-2"⟩

/-- C2, literal claim refuted: the date `"2024-1-2"` does not parse strictly
as `YYYY-MM-DD` (month and day are not zero-padded), yet the handler succeeds
and creates an Event row, because CPython strptime accepts one-digit month
and day fields. -/
theorem new_event_claim_cex :
    strictYmdParse "2024-1-2" = none ∧
    (new_event emptyState 1 0 fC2).2.events =
      [⟨1, "Camel Workshop", "A field workshop on camels", ⟨2024, 1, 2⟩, 1, 0⟩] :=
  ⟨by decide, by decide⟩

/-- Witness for `new_event_spec`: a rejected date leaves the state unchanged,
an accepted date appends one event, and a strict date is accepted. -/
theorem new_event_spec_witness :
    (strptimeYmd "2024-02-30" = none ∧
      new_event emptyState 1 0 ⟨"T", "D", "2024-02-30"⟩ =
        (.redirect "new_event" "Invalid date format. Use YYYY-MM-DD." "danger", emptyState)) ∧
    (strptimeYmd "2024-05-06" = some ⟨2024, 5, 6⟩ ∧
      new_event emptyState 1 0 ⟨"T", "D", "2024-05-06"⟩ =
        (.redirect "dashboard" "Event created." "success",
          ⟨[], [], [], [], [⟨1, "T", "D", ⟨2024, 5, 6⟩, 1, 0⟩]⟩)) ∧
    (strictYmdParse "2024-05-06" = some ⟨2024, 5, 6⟩ ∧
      strptimeYmd "2024-05-06" = some ⟨2024, 5, 6⟩) :=
  ⟨⟨by decide, (new_event_spec emptyState 1 0 ⟨"T", "D", "2024-02-30"⟩).1 (by decide)⟩,
   ⟨by decide, (new_event_spec emptyState 1 0 ⟨"T", "D", "2024-05-06"⟩).2.1 ⟨2024, 5, 6⟩ (by decide)⟩,
   ⟨by decide, (new_event_spec emptyState 1 0 ⟨"T", "D", "2024-05-06"⟩).2.2 "2024-05-06" ⟨2024, 5, 6⟩ (by decide)⟩⟩

/-! ## Registration (C3, C4) -/

/-- C3: when some existing user already has the submitted username or email,
registration flashes a conflict error, redirects back to the form, and leaves
the persisted state (users and profiles alike) unchanged. -/
theorem register_conflict (st : AppState) (salt now : Nat) (f : RegisterFormData)
    (h : ∃ u ∈ st.users, u.username = f.username ∨ u.email = f.email) :
    register st salt now f =
      (.redirect "register" "Username or email already exists" "danger", st) := by
  have hany : st.users.any (fun u => u.username == f.username || u.email == f.email) = true := by
    obtain ⟨u, hu, hc⟩ := h
    refine List.any_eq_true.2 ⟨u, hu, ?_⟩
    rcases hc with h | h <;> simp [h]
  rw [register, if_pos hany]

def uC3 : UserR := ⟨1, "alice", "alice@x.com", ⟨7, "pw123456"⟩, "farmer", 0⟩

def stC3 : AppState := ⟨[uC3], [⟨1, 1, "", "", "", ""⟩], [], [], []⟩

/-- Witness for `register_conflict`: re-registering the username `alice`. -/
theorem register_conflict_witness :
    (∃ u ∈ stC3.users, u.username = "alice" ∨ u.email = "new@x.com") ∧
    register stC3 9 5 ⟨"alice", "new@x.com", "secret", "vet"⟩ =
      (.redirect "register" "Username or email already exists" "danger", stC3) :=
  ⟨⟨uC3, by decide, Or.inl (by decide)⟩,
    register_conflict stC3 9 5 ⟨"alice", "new@x.com", "secret", "vet"⟩
      ⟨uC3, by decide, Or.inl (by decide)⟩⟩

/-- C4: when no existing user has the submitted username or email,
registration succeeds (redirect to login) and appends exactly one User row
carrying the submitted username, email, role and the hash of the submitted
password, plus exactly one empty Profile row bound to the fresh user id. -/
theorem register_success (st : AppState) (salt now : Nat) (f : RegisterFormData)
    (h : ∀ u ∈ st.users, u.username ≠ f.username ∧ u.email ≠ f.email) :
    register st salt now f =
      (.redirect "login" "Account created. Please log in." "success",
        { st with
          users := st.users ++ [⟨freshId (st.users.map (fun u => u.id)), f.username, f.email,
            bcrypt.hash salt f.password, f.role, now⟩],
          profiles := st.profiles ++ [⟨freshId (st.profiles.map (fun p => p.id)),
            freshId (st.users.map (fun u => u.id)), "", "", "", ""⟩] }) := by
  have hany : st.users.any (fun u => u.username == f.username || u.email == f.email) = false := by
    rw [Bool.eq_false_iff]
    intro hc
    obtain ⟨u, hu, hbe⟩ := List.any_eq_true.1 hc
    rw [Bool.or_eq_true, beq_iff_eq, beq_iff_eq] at hbe
    rcases hbe with hbe | hbe
    · exact (h u hu).1 hbe
    · exact (h u hu).2 hbe
  rw [register, if_neg (by rw [hany]; exact Bool.false_ne_true)]

/-- Witness for `register_success`: registering `bob` against a store that
only contains `alice`. -/
theorem register_success_witness :
    (∀ u ∈ stC3.users, u.username ≠ "bob" ∧ u.email ≠ "bob@x.com") ∧
    register stC3 9 5 ⟨"bob", "bob@x.com", "secret", "vet"⟩ =
      (.redirect "login" "Account created. Please log in." "success",
        ⟨[uC3, ⟨2, "bob", "bob@x.com", ⟨9, "secret"⟩, "vet", 5⟩],
         [⟨1, 1, "", "", "", ""⟩, ⟨2, 2, "", "", "", ""⟩], [], [], []⟩) :=
  ⟨by decide,
    register_success stC3 9 5 ⟨"bob", "bob@x.com", "secret", "vet"⟩ (by decide)⟩

/-! ## Messaging (C5) -/

/-- C5: sending to a username no user has fails (error flash, redirect back,
state unchanged); sending to an existing username appends exactly one Message
row with the current identity as sender, the found user as receiver, and the
creation timestamp populated. -/
theorem new_message_spec (st : AppState) (uid now : Nat) (f : MessageFormData) :
    ((∀ u ∈ st.users, u.username ≠ f.receiver) →
      new_message st uid now f = (.redirect "new_message" "Receiver not found." "danger", st)) ∧
    (∀ r, st.users.find? (fun u => u.username == f.receiver) = some r →
      new_message st uid now f =
        (.redirect "dashboard" "Message sent." "success",
          { st with messages := st.messages ++
              [⟨freshId (st.messages.map (fun m => m.id)), uid, r.id, f.subject, f.body, now⟩] })) := by
  constructor
  · intro h
    have hn : st.users.find? (fun u => u.username == f.receiver) = none :=
      List.find?_eq_none.2 fun u hu => by simpa using h u hu
    rw [new_message, hn]
  · intro r hr
    rw [new_message, hr]

def stC5 : AppState := ⟨[uC3], [], [], [], []⟩

/-- Witness for `new_message_spec`: messaging the missing user `carol` fails;
messaging `alice` appends one row. -/
theorem new_message_spec_witness :
    ((∀ u ∈ stC5.users, u.username ≠ "carol") ∧
      new_message stC5 8 3 ⟨"carol", "hi", "hello there"⟩ =
        (.redirect "new_message" "Receiver not found." "danger", stC5)) ∧
    (stC5.users.find? (fun u => u.username == "alice") = some uC3 ∧
      new_message stC5 8 3 ⟨"alice", "hi", "hello there"⟩ =
        (.redirect "dashboard" "Message sent." "success",
          ⟨[uC3], [], [], [⟨1, 8, 1, "hi", "hello there", 3⟩], []⟩)) :=
  ⟨⟨by decide, (new_message_spec stC5 8 3 ⟨"carol", "hi", "hello there"⟩).1 (by decide)⟩,
   ⟨by decide, (new_message_spec stC5 8 3 ⟨"alice", "hi", "hello there"⟩).2 uC3 (by decide)⟩⟩

/-! ## Password round-trip (C7) -/

/-- C7: after `set_password`, `check_password` accepts exactly the password
that was set: it returns true on that password and false on any other. -/
theorem password_roundtrip (u : UserR) (salt : Nat) (pw other : String)
    (h : other ≠ pw) :
    (u.set_password salt pw).check_password pw = true ∧
    (u.set_password salt pw).check_password other = false := by
  constructor
  · simp [UserR.set_password, UserR.check_password, bcrypt.hash, bcrypt.verify]
  · simp [UserR.set_password, UserR.check_password, bcrypt.hash, bcrypt.verify, h]

/-- Witness for `password_roundtrip` on the seed user `farmer1`. -/
theorem password_roundtrip_witness :
    ("farmerpassX" : String) ≠ "farmerpass" ∧
    ((uC3.set_password 11 "farmerpass").check_password "farmerpass" = true ∧
      (uC3.set_password 11 "farmerpass").check_password "farmerpassX" = false) :=
  ⟨by decide, password_roundtrip uC3 11 "farmerpass" "farmerpassX" (by decide)⟩

/-! ## User API (C8) -/

/-- C8: `GET /api/users/<id>` responds NotFound when no user has the id;
when the user exists but has no Profile row, the JSON profile object carries
all four keys defaulted to the empty string. -/
theorem api_user_spec (st : AppState) (uid : Nat) :
    (st.users.find? (fun u => u.id == uid) = none → api_user st uid = none) ∧
    (∀ u, st.users.find? (fun u => u.id == uid) = some u →
      st.profiles.find? (fun p => p.user_id == u.id) = none →
      api_user st uid = some ⟨u.id, u.username, u.email, u.role, ⟨"", "", "", ""⟩⟩) := by
  constructor
  · intro h
    rw [api_user, h]
  · intro u hu hp
    rw [api_user, hu]
    dsimp only
    rw [hp]

/-- Witness for `api_user_spec`: id 9 is absent; user `alice` (id 1) has no
profile row and gets the empty-string profile object. -/
theorem api_user_spec_witness :
    (stC5.users.find? (fun u => u.id == 9) = none ∧ api_user stC5 9 = none) ∧
    (stC5.users.find? (fun u => u.id == 1) = some uC3 ∧
      stC5.profiles.find? (fun p => p.user_id == uC3.id) = none ∧
      api_user stC5 1 = some ⟨1, "alice", "alice@x.com", "farmer", ⟨"", "", "", ""⟩⟩) :=
  ⟨⟨by decide, (api_user_spec stC5 9).1 (by decide)⟩,
   ⟨by decide, by decide, (api_user_spec stC5 1).2 uC3 (by decide) (by decide)⟩⟩

/-! ## Listing prices (C9, C10) -/

/-- A valid listing submission carrying a negative price. -/
def fC9 : ListingFormData :=
  ⟨"Fresh milk", "Ten characters plus", "milk", some (-5), "50 L", "Bikaner"⟩

/-- C9, literal claim refuted: the listing form has no validator on the price
field and the handler stores a truthy submitted price as-is, so a submission
with price -5 is stored with the negative price -5. -/
theorem new_listing_claim_cex :
    (new_listing emptyState 1 0 fC9).2.listings =
      [⟨1, "Fresh milk", "Ten characters plus", 1, "milk", some (-5), "50 L", "Bikaner", 0⟩] ∧
    ((-5 : ℚ) < 0) :=
  ⟨by decide, by norm_num⟩

/-- C9 (amended): the handler performs no sign validation on the price: it
stores NULL when the submitted price is absent or zero and otherwise stores
exactly the submitted value, negative values included. -/
theorem new_listing_price (st : AppState) (uid now : Nat) (f : ListingFormData) :
    (new_listing st uid now f).2.listings =
      st.listings ++ [⟨freshId (st.listings.map (fun l => l.id)), f.title, f.description, uid,
        f.category,
        (match f.price with
          | none => none
          | some p => if p == 0 then none else some p),
        f.quantity, f.location, now⟩] ∧
    (∀ p, f.price = some p → p < 0 →
      ⟨freshId (st.listings.map (fun l => l.id)), f.title, f.description, uid,
        f.category, some p, f.quantity, f.location, now⟩ ∈ (new_listing st uid now f).2.listings) := by
  constructor
  · rfl
  · intro p hp hneg
    have hz : (p == 0) = false := by
      rw [beq_eq_false_iff_ne]
      exact ne_of_lt hneg
    simp [new_listing, hp, hz]

/-- Witness for `new_listing_price` on the negative-price submission. -/
theorem new_listing_price_witness :
    ((new_listing emptyState 1 0 fC9).2.listings =
      emptyState.listings ++ [⟨freshId (emptyState.listings.map (fun l => l.id)),
        fC9.title, fC9.description, 1, fC9.category,
        (match fC9.price with
          | none => none
          | some p => if p == 0 then none else some p),
        fC9.quantity, fC9.location, 0⟩]) ∧
    (fC9.price = some (-5) ∧ ((-5 : ℚ) < 0) ∧
      ⟨freshId (emptyState.listings.map (fun l => l.id)), fC9.title, fC9.description, 1,
        fC9.category, some (-5), fC9.quantity, fC9.location, 0⟩ ∈
        (new_listing emptyState 1 0 fC9).2.listings) :=
  ⟨(new_listing_price emptyState 1 0 fC9).1,
   ⟨by decide, by norm_num,
    (new_listing_price emptyState 1 0 fC9).2 (-5) (by decide) (by norm_num)⟩⟩

/-- A valid listing submission whose price is exactly zero. -/
def fC10 : ListingFormData :=
  ⟨"Free advice", "Ten characters plus", "vet", some 0, "", "Jaipur"⟩

/-- C10: a submitted price of exactly zero (like an absent one) is falsy in
Python, so `price=form.price.data or None` stores NULL: the appended Listing
row has no price. -/
theorem new_listing_zero_price (st : AppState) (uid now : Nat) (f : ListingFormData)
    (h : f.price = none ∨ f.price = some 0) :
    (new_listing st uid now f).2.listings =
      st.listings ++ [⟨freshId (st.listings.map (fun l => l.id)), f.title, f.description, uid,
        f.category, none, f.quantity, f.location, now⟩] := by
  rcases h with h | h <;> simp [new_listing, h]

/-- Witness for `new_listing_zero_price` on a zero-price submission. -/
theorem new_listing_zero_price_witness :
    (fC10.price = none ∨ fC10.price = some 0) ∧
    (new_listing emptyState 1 0 fC10).2.listings =
      emptyState.listings ++ [⟨freshId (emptyState.listings.map (fun l => l.id)),
        fC10.title, fC10.description, 1, fC10.category, none, fC10.quantity, fC10.location, 0⟩] :=
  ⟨Or.inr (by decide), new_listing_zero_price emptyState 1 0 fC10 (Or.inr (by decide))⟩
